import Mathlib

/-!
# Verification of the objcurses camera, CLI and startup layers

Shallow embedding of `src/entities/view/camera.h`, `src/config.h` and
`src/main.cpp` of the objcurses repository.

Modelling conventions:

* C++ `float` values are modelled as exact rationals (`ℚ`); the claims under
  study are about the algebraic clamp/normalise/parse structure of the code,
  not about rounding.
* Angle values, which the source stores in radians, are represented by their
  ratio to π: a source value of `v` radians is stored here as the rational
  `v / π`.  This map is an exact linear bijection, under which the source's
  `PI` becomes `1`, `π/2` becomes `1/2`, and `deg2rad d = d·π/180` becomes
  `d·1/180`.  It keeps every definition computable and every concrete
  evaluation exact.
* `utils/mathematics.h` and `utils/tools.h` are not among the provided
  sources; the helpers they declare (`PI`, `deg2rad`, `rad_norm`,
  `safe_stof`) are modelled from the spec, as marked on each definition.
-/

namespace Objcurses

/-- Modelled from the spec: `PI` from `utils/mathematics.h` (file not in
`src/`), the circle constant in radians.  In the π-ratio representation of
angles used throughout this file it is the rational `1`. -/
def PI : ℚ := 1

/-- Modelled from the spec ("all angles stored/consumed in radians internally,
degrees only at the user-facing boundary"): `deg2rad` from
`utils/mathematics.h` (file not in `src/`), the standard degree→radian
conversion `d ↦ d·π/180`, here in π-ratio representation. -/
def deg2rad (d : ℚ) : ℚ := d * PI / 180

/-- Modelled from the spec ("angle normalization", "azimuth ∈ normalized angle
range (e.g. (−π, π])"): `rad_norm` from `utils/mathematics.h` (file not in
`src/`), normalising an angle into the canonical half-open range `(−π, π]` by
subtracting the unique integer multiple of `2π`. -/
def rad_norm (x : ℚ) : ℚ := x - 2 * PI * ⌈(x - PI) / (2 * PI)⌉

/-- C++ `std::clamp(v, lo, hi)`: `v < lo ? lo : (hi < v ? hi : v)`. -/
def cppClamp (v lo hi : ℚ) : ℚ := if v < lo then lo else if hi < v then hi else v

/-! ## src/config.h -/

/-- `inline constexpr float ANGLE_STEP = 5.0f;` (degrees). -/
def ANGLE_STEP : ℚ := 5.0

/-- `inline constexpr float ZOOM_START = 1.0f;` -/
def ZOOM_START : ℚ := 1.0

/-- `inline constexpr float ZOOM_STEP = 0.1f;` -/
def ZOOM_STEP : ℚ := 0.1

/-- `inline constexpr float ZOOM_MIN = 0.10f;` -/
def ZOOM_MIN : ℚ := 0.10

/-- `inline constexpr float ZOOM_MAX = 5.00f;` -/
def ZOOM_MAX : ℚ := 5.00

/-- `inline constexpr float ALTITUDE_START = 0.00f;` (degrees). -/
def ALTITUDE_START : ℚ := 0.00

/-- `inline constexpr float AZIMUTH_START = 0.00f;` (degrees). -/
def AZIMUTH_START : ℚ := 0.00

/-- `inline constexpr float FRAME_DURATION = 1.0f / 60.0f; // 60 fps` -/
def FRAME_DURATION : ℚ := 1.0 / 60.0

/-- `inline constexpr float ANIMATION_STEP_ALTITUDE = 30.0f;` (deg/s). -/
def ANIMATION_STEP_ALTITUDE : ℚ := 30.0

/-- `inline constexpr float ANIMATION_STEP_AZIMUTH = 30.0f;` (deg/s). -/
def ANIMATION_STEP_AZIMUTH : ℚ := 30.0

/-! ## src/entities/view/camera.h -/

/-- The `Camera` class: `float azimuth; float altitude; float zoom;`
(azimuth and altitude in radians — here in π-ratio representation). -/
structure Camera where
  azimuth : ℚ
  altitude : ℚ
  zoom : ℚ
  deriving DecidableEq

/-- `Camera() : azimuth(0.0f), altitude(0.0f),
zoom(std::clamp(1.0f, ZOOM_MIN, ZOOM_MAX)) {}` -/
def Camera.mk0 : Camera :=
  ⟨0, 0, cppClamp 1 ZOOM_MIN ZOOM_MAX⟩

/-- `explicit Camera(float zoom) : azimuth(0.0f), altitude(0.0f),
zoom(std::clamp(zoom, ZOOM_MIN, ZOOM_MAX)) {}` -/
def Camera.mk1 (zoom : ℚ) : Camera :=
  ⟨0, 0, cppClamp zoom ZOOM_MIN ZOOM_MAX⟩

/-- `Camera(float azimuth, float altitude, float zoom) :
azimuth(rad_norm(azimuth)), altitude(std::clamp(altitude, -PI / 2, PI / 2)),
zoom(std::clamp(zoom, ZOOM_MIN, ZOOM_MAX)) {}` -/
def Camera.mk3 (azimuth altitude zoom : ℚ) : Camera :=
  ⟨rad_norm azimuth,
   cppClamp altitude (-(PI / 2)) (PI / 2),
   cppClamp zoom ZOOM_MIN ZOOM_MAX⟩

/-- `void rotate_left(float degree = ANGLE_STEP)
{ azimuth = rad_norm(azimuth + deg2rad(degree)); }` -/
def Camera.rotate_left (c : Camera) (degree : ℚ) : Camera :=
  { c with azimuth := rad_norm (c.azimuth + deg2rad degree) }

/-- `void rotate_right(float degree = ANGLE_STEP)
{ azimuth = rad_norm(azimuth - deg2rad(degree)); }` -/
def Camera.rotate_right (c : Camera) (degree : ℚ) : Camera :=
  { c with azimuth := rad_norm (c.azimuth - deg2rad degree) }

/-- `void rotate_up(float degree = ANGLE_STEP)
{ altitude = rad_norm(altitude - deg2rad(degree)); }` — note: the source
normalises (it does not clamp), and subtracts. -/
def Camera.rotate_up (c : Camera) (degree : ℚ) : Camera :=
  { c with altitude := rad_norm (c.altitude - deg2rad degree) }

/-- `void rotate_down(float degree = ANGLE_STEP)
{ altitude = rad_norm(altitude - deg2rad(degree)); }` — note: the source
normalises (it does not clamp), and subtracts, exactly as `rotate_up`. -/
def Camera.rotate_down (c : Camera) (degree : ℚ) : Camera :=
  { c with altitude := rad_norm (c.altitude - deg2rad degree) }

/-- `void zoom_in(float step = ZOOM_STEP)
{ zoom = std::min(zoom + step, ZOOM_MAX); }` -/
def Camera.zoom_in (c : Camera) (step : ℚ) : Camera :=
  { c with zoom := min (c.zoom + step) ZOOM_MAX }

/-- `void zoom_out(float step = ZOOM_STEP)
{ zoom = std::max(zoom - step, ZOOM_MIN); }` -/
def Camera.zoom_out (c : Camera) (step : ℚ) : Camera :=
  { c with zoom := max (c.zoom - step) ZOOM_MIN }

/-! ## src/main.cpp — CLI argument parsing -/

/-- `enum class Theme { Dark = 1, Light = 2, Transparent = 3 };` -/
inductive Theme
  | Dark
  | Light
  | Transparent
  deriving DecidableEq

/-- The `Args` struct of main.cpp with its member initialisers.
`input_file` models the `std::filesystem::path` by its string; the numeric
`float` members are exact rationals. -/
structure Args where
  input_file : String := ""
  color_support : Bool := false
  theme : Theme := Theme.Dark
  static_light : Bool := false
  flip_faces : Bool := false
  invert_x : Bool := false
  invert_y : Bool := false
  invert_z : Bool := false
  animate_altitude : Bool := false
  animate_azimuth : Bool := false
  speed_altitude : ℚ := ANIMATION_STEP_ALTITUDE
  speed_azimuth : ℚ := ANIMATION_STEP_AZIMUTH
  zoom : ℚ := ZOOM_START
  altitude : ℚ := ALTITUDE_START
  azimuth : ℚ := AZIMUTH_START
  deriving DecidableEq

/-- Digit run to its decimal value. -/
def digitsToNat (l : List Char) : ℕ :=
  l.foldl (fun acc c => 10 * acc + (c.toNat - 48)) 0

/-- Value of an unsigned decimal literal split as integer digits and
fractional digits. -/
def decimalVal (ip fp : List Char) : ℚ :=
  (digitsToNat ip : ℚ) + (digitsToNat fp : ℚ) / 10 ^ fp.length

/-- Modelled from the spec ("malformed numeric CLI argument"): `safe_stof`
from `utils/tools.h` (file not in `src/`), which parses a decimal floating
literal and reports failure on malformed input.  The model accepts an
optional sign, then digits with an optional decimal point (at least one digit
overall), and returns `none` on anything else. -/
def safe_stof (s : String) : Option ℚ :=
  let withBody : Bool → List Char → Option ℚ := fun neg body =>
    match body.span Char.isDigit with
    | (ip, []) =>
      if ip.isEmpty then none
      else some (if neg then -(digitsToNat ip : ℚ) else (digitsToNat ip : ℚ))
    | (ip, c :: fp) =>
      if c = '.' ∧ fp.all Char.isDigit ∧ ¬(ip.isEmpty ∧ fp.isEmpty) then
        some (if neg then -decimalVal ip fp else decimalVal ip fp)
      else none
  match s.toList with
  | '-' :: rest => withBody true rest
  | '+' :: rest => withBody false rest
  | l => withBody false l

/-- C++ `argv[i][0] != '-'` is `¬ firstCharIsDash s`; on the empty string the
C++ expression reads the terminating null byte, which is not a dash. -/
def firstCharIsDash (s : String) : Bool :=
  match s.toList with
  | [] => false
  | c :: _ => c = '-'

/-- Outcome of `parse_args`: either the populated `Args`, or a call to
`std::exit(code)` after writing the given lines to standard error (the help
and version texts go to standard out and are not tracked, so those two exits
carry an empty stderr list). -/
inductive ParseOutcome
  | success (a : Args)
  | exit (code : ℕ) (toStderr : List String)
  deriving DecidableEq

/-- The loop body of `parse_args` (main.cpp lines 168–342), translated branch
by branch in source order.  The list argument is `argv[i..]`; consuming the
following argument (`++i`) is modelled by recursing on the tail of the tail.
The final no-input-file check (lines 334–339) is the base case. -/
def parse_loop : List String → Args → ParseOutcome
  | [], a =>
    if a.input_file = "" then
      ParseOutcome.exit 1 ["error: no input file", "type \x27--help\x27 for usage"]
    else ParseOutcome.success a
  | arg :: rest, a =>
    if arg = "-h" ∨ arg = "--help" then ParseOutcome.exit 0 []
    else if arg = "-v" ∨ arg = "--version" then ParseOutcome.exit 0 []
    else if arg = "-c" ∨ arg = "--color" then
      match _hr : rest with
      | next :: rest2 =>
        if firstCharIsDash next = false then
          if next = "dark" then
            parse_loop rest2 { a with color_support := true, theme := Theme.Dark }
          else if next = "light" then
            parse_loop rest2 { a with color_support := true, theme := Theme.Light }
          else if next = "transparent" then
            parse_loop rest2 { a with color_support := true, theme := Theme.Transparent }
          else parse_loop rest { a with color_support := true }
        else parse_loop rest { a with color_support := true }
      | [] => parse_loop rest { a with color_support := true }
    else if arg = "-l" ∨ arg = "--light" then
      parse_loop rest { a with static_light := true }
    else if arg = "-az" then
      match _hr : rest with
      | next :: rest2 =>
        if firstCharIsDash next = false then
          match safe_stof next with
          | some v =>
            parse_loop rest2 { a with animate_azimuth := true, speed_azimuth := v }
          | none => parse_loop rest { a with animate_azimuth := true }
        else parse_loop rest { a with animate_azimuth := true }
      | [] => parse_loop rest { a with animate_azimuth := true }
    else if arg = "-al" then
      match _hr : rest with
      | next :: rest2 =>
        if firstCharIsDash next = false then
          match safe_stof next with
          | some v =>
            parse_loop rest2 { a with animate_altitude := true, speed_altitude := v }
          | none => parse_loop rest { a with animate_altitude := true }
        else parse_loop rest { a with animate_altitude := true }
      | [] => parse_loop rest { a with animate_altitude := true }
    else if arg = "-z" ∨ arg = "--zoom" then
      match _hr : rest with
      | [] => ParseOutcome.exit 1 ["error: zoom needs value"]
      | v :: rest2 =>
        match safe_stof v with
        | none => ParseOutcome.exit 1 ["error: invalid zoom value"]
        | some x => parse_loop rest2 { a with zoom := x }
    else if arg = "--altitude" then
      match _hr : rest with
      | [] => ParseOutcome.exit 1 ["error: altitude needs value"]
      | v :: rest2 =>
        match safe_stof v with
        | none => ParseOutcome.exit 1 ["error: invalid altitude value"]
        | some x => parse_loop rest2 { a with altitude := x }
    else if arg = "--azimuth" then
      match _hr : rest with
      | [] => ParseOutcome.exit 1 ["error: azimuth needs value"]
      | v :: rest2 =>
        match safe_stof v with
        | none => ParseOutcome.exit 1 ["error: invalid azimuth value"]
        | some x => parse_loop rest2 { a with azimuth := x }
    else if arg = "--flip" then parse_loop rest { a with flip_faces := true }
    else if arg = "--invert-x" then parse_loop rest { a with invert_x := true }
    else if arg = "--invert-y" then parse_loop rest { a with invert_y := true }
    else if arg = "--invert-z" then parse_loop rest { a with invert_z := true }
    else if firstCharIsDash arg = false then
      if a.input_file ≠ "" then
        ParseOutcome.exit 1 ["error: more arguments than expected"]
      else parse_loop rest { a with input_file := arg }
    else
      ParseOutcome.exit 1 ["unknown option: " ++ arg, "type \x27--help\x27 for usage"]
termination_by l _ => l.length
decreasing_by all_goals simp_all <;> omega

/-- `parse_args(argc, argv)`: run the loop from `i = 1` (the list holds the
arguments after the program name) on a default-initialised `Args`. -/
def parse_args (argv : List String) : ParseOutcome :=
  parse_loop argv {}

/-! ## src/main.cpp — startup sequencing (main, lines 391–457) -/

/-- main.cpp lines 441–447:
`Camera cam(args.zoom);` (the one-argument constructor, which clamps the
zoom), followed by the direct public-field writes
`cam.altitude = deg2rad(args.altitude); cam.azimuth = deg2rad(args.azimuth);`
— these bypass the constructor's clamp and `rad_norm`. -/
def initial_camera (a : Args) : Camera :=
  { Camera.mk1 a.zoom with
    altitude := deg2rad a.altitude,
    azimuth := deg2rad a.azimuth }

/-- Modelled from the spec (`Object::load` lives in
entities/geometry/object.h, which is not in `src/`): per §6 the loader "may
fail, in which case the system must abort startup with a non-zero exit status
and a human-readable message"; the message text itself is not visible in the
provided sources. -/
def load_error_message (f : String) : String :=
  "error: failed to load object " ++ f

/-- Outcome of `main` up to the render loop: either `std::exit`/`return` with
an exit code, the stderr lines written, and whether ncurses had been entered
(`init_ncurses` runs at line 423, after parsing and loading); or entry into
the first render-loop iteration with the populated `Args` and the camera
state built at lines 441–447. -/
inductive StartupOutcome
  | exit (code : ℕ) (toStderr : List String) (cursesEntered : Bool)
  | loop (a : Args) (cam : Camera)
  deriving DecidableEq

/-- main.cpp lines 391–457: `parse_args`, then `Object::load` (modelled by
the oracle `loadOk`, see `load_error_message`; on failure main returns 1),
then the geometry setup, `init_ncurses`, `init_colors`, buffer and camera
initialisation, then the render loop.  The geometry transforms mutate only
the object and are omitted; both exit paths precede `init_ncurses`. -/
def startup (argv : List String) (loadOk : String → Bool) : StartupOutcome :=
  match parse_args argv with
  | ParseOutcome.exit c msgs => StartupOutcome.exit c msgs false
  | ParseOutcome.success a =>
    if loadOk a.input_file then StartupOutcome.loop a (initial_camera a)
    else StartupOutcome.exit 1 [load_error_message a.input_file] false
/-- The option strings that `parse_args` recognises (main.cpp lines
176–314); any other dash-initial argument reaches the unknown-option branch
(lines 325–331). -/
def knownOptions : List String :=
  ["-h", "--help", "-v", "--version", "-c", "--color", "-l", "--light",
   "-az", "-al", "-z", "--zoom", "--altitude", "--azimuth",
   "--flip", "--invert-x", "--invert-y", "--invert-z"]
/-! ## src/main.cpp — frame pacing and color initialisation -/

/-- main.cpp lines 459 and 531–533: each render-loop iteration records
`now = SteadyClock::now()` at its top, and ends with
`sleep_until(now + FRAME_DURATION)`.  Given the wall-clock duration `work`
that the iteration's body took, the next iteration starts at the later of
the fixed deadline `now + FRAME_DURATION` and the time `now + work` at which
the body finished (`sleep_until` on a past deadline returns immediately). -/
def next_frame_start (now work : ℚ) : ℚ :=
  max (now + work) (now + FRAME_DURATION)
/-- Outcome of `init_colors`: the pair indices passed to `init_pair` for
materials, and the HUD pair index when its `init_pair` call is executed. -/
structure ColorInit where
  materialPairs : List ℤ
  hudPair : Option ℤ
  deriving DecidableEq

/-- C++ `static_cast<size_t>(v)` applied to a (64-bit-or-narrower signed)
integer value: conversion to the unsigned 64-bit type, i.e. the value
modulo `2^64`. -/
def size_t_cast (v : ℤ) : ℕ :=
  (v % (2 : ℤ) ^ 64).toNat

/-- `init_colors` (main.cpp lines 52–105).  `materials` carries each
material's diffuse triple, `colorPairs` the terminal's `COLOR_PAIRS`,
`hasColors`/`canChange` the results of `has_colors()`/`can_change_color()`.
The function registers
`limit = std::min(materials.size(), static_cast<size_t>(COLOR_PAIRS - 2))`
material pairs with indices `1..limit`, sets `g_hud_pair = limit + 1`, and
registers the HUD pair only when `g_hud_pair < COLOR_PAIRS`.  Only the
`init_pair` registrations are modelled: theme selection, the `init_color`
palette redefinitions (which reuse the same indices) and the `bkgd` call do
not register pairs. -/
def init_colors (materials : List (ℚ × ℚ × ℚ)) (colorPairs : ℤ)
    (hasColors canChange : Bool) : ColorInit :=
  if hasColors = false ∨ canChange = false then ⟨[], none⟩
  else
    let limit : ℕ := min materials.length (size_t_cast (colorPairs - 2))
    let hud : ℤ := (limit : ℤ) + 1
    ⟨(List.range limit).map (fun (i : ℕ) => (i : ℤ) + 1),
     if hud < colorPairs then some hud else none⟩
/-! ## Basic facts about the modelled math helpers -/

theorem rad_norm_mem (x : ℚ) : -PI < rad_norm x ∧ rad_norm x ≤ PI := by
  have h1 : (x - PI) / (2 * PI) ≤ (⌈(x - PI) / (2 * PI)⌉ : ℚ) := Int.le_ceil _
  have h2 : (⌈(x - PI) / (2 * PI)⌉ : ℚ) < (x - PI) / (2 * PI) + 1 :=
    Int.ceil_lt_add_one _
  constructor
  · simp only [rad_norm, PI] at *
    nlinarith
  · simp only [rad_norm, PI] at *
    nlinarith

theorem rad_norm_sub_int_mul (x : ℚ) (k : ℤ) :
    rad_norm (x - 2 * PI * k) = rad_norm x := by
  simp only [rad_norm, PI]
  have h : (x - 2 * 1 * (k : ℚ) - 1) / (2 * 1) = (x - 1) / (2 * 1) - (k : ℚ) := by
    ring
  rw [h, Int.ceil_sub_int]
  push_cast
  ring

theorem rad_norm_round_trip (θ d : ℚ) :
    rad_norm (rad_norm (θ + d) - d) = rad_norm θ := by
  have h : rad_norm (θ + d) - d = θ - 2 * PI * ⌈(θ + d - PI) / (2 * PI)⌉ := by
    simp only [rad_norm]
    ring
  rw [h, rad_norm_sub_int_mul]

theorem cppClamp_mem {lo hi : ℚ} (v : ℚ) (h : lo ≤ hi) :
    lo ≤ cppClamp v lo hi ∧ cppClamp v lo hi ≤ hi := by
  unfold cppClamp
  split_ifs with h1 h2 <;> constructor <;> linarith

theorem ceil_eval {q : ℚ} {z : ℤ} (h1 : (z : ℚ) - 1 < q) (h2 : q ≤ (z : ℚ)) :
    ⌈q⌉ = z :=
  Int.ceil_eq_iff.mpr ⟨h1, h2⟩

theorem rad_norm_of_mem {x : ℚ} (h1 : -PI < x) (h2 : x ≤ PI) : rad_norm x = x := by
  have hc : ⌈(x - PI) / (2 * PI)⌉ = 0 := by
    apply ceil_eval
    · simp only [PI] at *
      push_cast
      linarith
    · simp only [PI] at *
      push_cast
      linarith
  simp [rad_norm, hc]

theorem rad_norm_eval (x : ℚ) (k : ℤ) (hk : ⌈(x - PI) / (2 * PI)⌉ = k) :
    rad_norm x = x - 2 * PI * k := by
  simp [rad_norm, hk]

example : rad_norm (5/2) = 1/2 := by
  rw [rad_norm_eval (5/2) 1 (ceil_eval (by norm_num [PI]) (by norm_num [PI]))]
  norm_num [PI]

example : deg2rad 90 = 1/2 := by norm_num [deg2rad, PI]

/-! ## Claims about the Camera (C1, C2, C3, C5, C6) -/

/-- C1: evaluation of the code at a failing input.  From the default pose
(altitude 0) a request `rotate_up(100)` stores
`rad_norm(0 - deg2rad(100)) = -100°` in radians (`-5π/9`, here `-5/9` in
π-ratio units), which lies strictly below the claimed clamp boundary `-π/2`:
the source normalises the altitude instead of clamping it, so the stored
altitude is neither inside `[-π/2, π/2]` nor equal to a clamp boundary. -/
theorem rotate_up_escapes_altitude_clamp :
    ((Camera.mk3 0 0 1).rotate_up 100).altitude = -(5/9)
      ∧ ((Camera.mk3 0 0 1).rotate_up 100).altitude < -(PI / 2) := by
  have h0 : (Camera.mk3 0 0 1).altitude = 0 := by
    norm_num [Camera.mk3, cppClamp, PI]
  have harg : (Camera.mk3 0 0 1).altitude - deg2rad 100 = -(5/9) := by
    rw [h0]; norm_num [deg2rad, PI]
  have hval : ((Camera.mk3 0 0 1).rotate_up 100).altitude = -(5/9) := by
    show rad_norm ((Camera.mk3 0 0 1).altitude - deg2rad 100) = -(5/9)
    rw [harg]
    exact rad_norm_of_mem (by norm_num [PI]) (by norm_num [PI])
  exact ⟨hval, by rw [hval]; norm_num [PI]⟩

/-- C2: `rotate_up` and `rotate_down` are the identical state transformer —
both compute `altitude = rad_norm(altitude - deg2rad(degree))`
(camera.h lines 35–42), so for every camera state and every degree amount the
two mutators produce exactly the same camera state. -/
theorem rotate_up_eq_rotate_down (c : Camera) (d : ℚ) :
    c.rotate_up d = c.rotate_down d := rfl

/-- C3 counterexample: from the in-range zoom `1` (constructed by the
three-argument constructor), `zoom_in(-10)` stores
`min(1 + (-10), ZOOM_MAX) = -9`, which is far below `ZOOM_MIN = 0.10`:
`zoom_in` only clamps from above and `zoom_out` only from below, so a step of
negative sign escapes the claimed interval `[ZOOM_MIN, ZOOM_MAX]`. -/
theorem zoom_in_negative_step_escapes :
    ((Camera.mk3 0 0 1).zoom_in (-10)).zoom < ZOOM_MIN := by
  have h0 : (Camera.mk3 0 0 1).zoom = 1 := by
    norm_num [Camera.mk3, cppClamp, ZOOM_MIN, ZOOM_MAX]
  show min ((Camera.mk3 0 0 1).zoom + (-10)) ZOOM_MAX < ZOOM_MIN
  rw [h0]
  norm_num [ZOOM_MIN, ZOOM_MAX]

/-- C3 amended: for every camera state whose stored zoom already lies in
`[ZOOM_MIN, ZOOM_MAX]` and every nonnegative step `s`, both `zoom_in(s)` and
`zoom_out(s)` leave the stored zoom inside `[ZOOM_MIN, ZOOM_MAX]`. -/
theorem zoom_ops_stay_in_range (c : Camera) (s : ℚ)
    (h1 : ZOOM_MIN ≤ c.zoom) (h2 : c.zoom ≤ ZOOM_MAX) (hs : 0 ≤ s) :
    (ZOOM_MIN ≤ (c.zoom_in s).zoom ∧ (c.zoom_in s).zoom ≤ ZOOM_MAX)
      ∧ (ZOOM_MIN ≤ (c.zoom_out s).zoom ∧ (c.zoom_out s).zoom ≤ ZOOM_MAX) := by
  have hmm : ZOOM_MIN ≤ ZOOM_MAX := by norm_num [ZOOM_MIN, ZOOM_MAX]
  refine ⟨⟨?_, ?_⟩, ?_, ?_⟩
  · show ZOOM_MIN ≤ min (c.zoom + s) ZOOM_MAX
    exact le_min (by linarith) hmm
  · show min (c.zoom + s) ZOOM_MAX ≤ ZOOM_MAX
    exact min_le_right _ _
  · show ZOOM_MIN ≤ max (c.zoom - s) ZOOM_MIN
    exact le_max_right _ _
  · show max (c.zoom - s) ZOOM_MIN ≤ ZOOM_MAX
    exact max_le (by linarith) hmm

/-- Witness for the amended C3 theorem at the concrete camera
`Camera(0, 0, 1)` and step `ZOOM_STEP = 0.1`. -/
theorem zoom_ops_stay_in_range_witness :
    (ZOOM_MIN ≤ ((Camera.mk3 0 0 1).zoom_in ZOOM_STEP).zoom
        ∧ ((Camera.mk3 0 0 1).zoom_in ZOOM_STEP).zoom ≤ ZOOM_MAX)
      ∧ (ZOOM_MIN ≤ ((Camera.mk3 0 0 1).zoom_out ZOOM_STEP).zoom
        ∧ ((Camera.mk3 0 0 1).zoom_out ZOOM_STEP).zoom ≤ ZOOM_MAX) :=
  zoom_ops_stay_in_range (Camera.mk3 0 0 1) ZOOM_STEP
    (by norm_num [Camera.mk3, cppClamp, ZOOM_MIN, ZOOM_MAX])
    (by norm_num [Camera.mk3, cppClamp, ZOOM_MIN, ZOOM_MAX])
    (by norm_num [ZOOM_STEP])

/-- C5: the three-argument constructor stores `rad_norm(azimuth)` (which lies
in the canonical range `(-π, π]`), the altitude clamped to `[-π/2, π/2]`, and
the zoom clamped to `[ZOOM_MIN, ZOOM_MAX]`; the zero- and one-argument
constructors store azimuth 0, altitude 0, and a zoom clamped to
`[ZOOM_MIN, ZOOM_MAX]`. -/
theorem camera_constructors_establish_invariants (az al z : ℚ) :
    (Camera.mk3 az al z).azimuth = rad_norm az
      ∧ -PI < (Camera.mk3 az al z).azimuth ∧ (Camera.mk3 az al z).azimuth ≤ PI
      ∧ (Camera.mk3 az al z).altitude = cppClamp al (-(PI / 2)) (PI / 2)
      ∧ -(PI / 2) ≤ (Camera.mk3 az al z).altitude
      ∧ (Camera.mk3 az al z).altitude ≤ PI / 2
      ∧ (Camera.mk3 az al z).zoom = cppClamp z ZOOM_MIN ZOOM_MAX
      ∧ ZOOM_MIN ≤ (Camera.mk3 az al z).zoom
      ∧ (Camera.mk3 az al z).zoom ≤ ZOOM_MAX
      ∧ Camera.mk0.azimuth = 0 ∧ Camera.mk0.altitude = 0
      ∧ ZOOM_MIN ≤ Camera.mk0.zoom ∧ Camera.mk0.zoom ≤ ZOOM_MAX
      ∧ (Camera.mk1 z).azimuth = 0 ∧ (Camera.mk1 z).altitude = 0
      ∧ ZOOM_MIN ≤ (Camera.mk1 z).zoom ∧ (Camera.mk1 z).zoom ≤ ZOOM_MAX := by
  have hpi : -(PI / 2) ≤ (PI / 2 : ℚ) := by norm_num [PI]
  have hz : ZOOM_MIN ≤ (ZOOM_MAX : ℚ) := by norm_num [ZOOM_MIN, ZOOM_MAX]
  exact ⟨rfl, (rad_norm_mem az).1, (rad_norm_mem az).2, rfl,
    (cppClamp_mem al hpi).1, (cppClamp_mem al hpi).2, rfl,
    (cppClamp_mem z hz).1, (cppClamp_mem z hz).2,
    rfl, rfl, (cppClamp_mem 1 hz).1, (cppClamp_mem 1 hz).2,
    rfl, rfl, (cppClamp_mem z hz).1, (cppClamp_mem z hz).2⟩

/-- C6: `rotate_left(d)` followed by `rotate_right(d)` restores the azimuth to
the normalised canonical form of the starting azimuth, for every camera state
and every degree amount `d`. -/
theorem rotate_left_then_right_restores_azimuth (c : Camera) (d : ℚ) :
    ((c.rotate_left d).rotate_right d).azimuth = rad_norm c.azimuth := by
  simp only [Camera.rotate_left, Camera.rotate_right]
  exact rad_norm_round_trip c.azimuth (deg2rad d)

/-! ## Claims about CLI handling and startup (C4, C7, C8) -/

/-- C4 counterexample: the invocation `--altitude 200 x.obj` reaches the
first render-loop iteration with stored altitude `deg2rad(200) = 10π/9`
(`10/9` in π-ratio units), strictly above `π/2`: main.cpp lines 446–447 write
the CLI angles into the public camera fields directly, without the clamp or
normalisation that the constructor and mutators apply. -/
theorem cli_altitude_escapes_clamp :
    startup ["--altitude", "200", "x.obj"] (fun _ => true)
      = StartupOutcome.loop { input_file := "x.obj", altitude := 200 }
          { azimuth := 0, altitude := 10/9, zoom := 1 }
      ∧ PI / 2 < (10/9 : ℚ) := by
  constructor
  · have hp : parse_args ["--altitude", "200", "x.obj"]
        = ParseOutcome.success { input_file := "x.obj", altitude := 200 } := by
      simp [parse_args, parse_loop, safe_stof, firstCharIsDash, digitsToNat]
    simp only [startup, hp]
    norm_num [initial_camera, Camera.mk1, cppClamp, deg2rad,
      ZOOM_MIN, ZOOM_MAX, PI, ZOOM_START, AZIMUTH_START]
  · norm_num [PI]

/-- C4 amended: the CLI-provided zoom is clamped (it passes through the
one-argument constructor), but the CLI-provided azimuth and altitude are
written into the camera fields directly as `deg2rad` of the given degree
values, with no normalisation and no clamp; the camera state at entry to the
first render-loop iteration is exactly `initial_camera` of the parsed
arguments. -/
theorem initial_camera_clamps_only_zoom (a : Args) (argv : List String)
    (loadOk : String → Bool) (a2 : Args) (cam : Camera)
    (hloop : startup argv loadOk = StartupOutcome.loop a2 cam) :
    (ZOOM_MIN ≤ (initial_camera a).zoom ∧ (initial_camera a).zoom ≤ ZOOM_MAX)
      ∧ (initial_camera a).altitude = deg2rad a.altitude
      ∧ (initial_camera a).azimuth = deg2rad a.azimuth
      ∧ cam = initial_camera a2 := by
  have hz : ZOOM_MIN ≤ (ZOOM_MAX : ℚ) := by norm_num [ZOOM_MIN, ZOOM_MAX]
  refine ⟨⟨(cppClamp_mem a.zoom hz).1, (cppClamp_mem a.zoom hz).2⟩, rfl, rfl, ?_⟩
  unfold startup at hloop
  cases hp : parse_args argv with
  | exit c msgs => rw [hp] at hloop; exact absurd hloop (by simp)
  | success a0 =>
    rw [hp] at hloop
    by_cases hl : loadOk a0.input_file
    · simp only [hl, if_true] at hloop
      obtain ⟨h1, h2⟩ := StartupOutcome.loop.inj hloop
      rw [← h1, ← h2]
    · simp only [hl, if_false] at hloop
      exact absurd hloop (by simp)

/-- Witness for the amended C4 theorem: the invocation `x.obj` (with a
loader that succeeds) enters the loop, and the initial camera of the default
arguments has clamped zoom and raw converted angles. -/
theorem initial_camera_clamps_only_zoom_witness :
    (ZOOM_MIN ≤ (initial_camera {}).zoom ∧ (initial_camera {}).zoom ≤ ZOOM_MAX)
      ∧ (initial_camera {}).altitude = deg2rad (Args.altitude {})
      ∧ (initial_camera {}).azimuth = deg2rad (Args.azimuth {})
      ∧ initial_camera { input_file := "x.obj" }
          = initial_camera { input_file := "x.obj" } :=
  initial_camera_clamps_only_zoom {} ["x.obj"] (fun _ => true)
    { input_file := "x.obj" } (initial_camera { input_file := "x.obj" })
    (by simp [startup, parse_args, parse_loop, firstCharIsDash])

/-- C7 counterexample: the command line `-al abc` contains the malformed
numeric value `abc` for the numeric option `-al`, yet `parse_args` exits
neither with status 1 nor with any message: `safe_stof` fails, the value is
simply not consumed, the stray token is then taken as the input file name,
and parsing succeeds. -/
theorem malformed_al_value_parses_successfully :
    parse_args ["-al", "abc"]
      = ParseOutcome.success { input_file := "abc", animate_altitude := true } := by
  simp [parse_args, parse_loop, safe_stof, firstCharIsDash]

/-- C7 amended: a malformed numeric value for `-z`/`--zoom`, `--altitude` or
`--azimuth` makes `parse_args` write one specific error line to standard
error (with no usage hint) and exit with status 1; an unknown dash-initial
option makes it write the error plus the usage hint and exit with status 1;
a malformed optional value for `-al`/`-az` is not consumed and is not an
error by itself; and every exit taken inside `parse_args` happens before any
ncurses mode is entered (the `startup` outcome carries `cursesEntered =
false`), hence before the render loop. -/
theorem parse_errors_exit_before_curses (a : Args) (v arg : String)
    (rest argv : List String) (loadOk : String → Bool) (c : ℕ)
    (m : List String)
    (hv : safe_stof v = none)
    (hvd : firstCharIsDash v = false)
    (hd : firstCharIsDash arg = true)
    (hu : arg ∉ knownOptions)
    (hexit : parse_args argv = ParseOutcome.exit c m) :
    parse_loop ("-z" :: v :: rest) a
        = ParseOutcome.exit 1 ["error: invalid zoom value"]
      ∧ parse_loop ("--zoom" :: v :: rest) a
        = ParseOutcome.exit 1 ["error: invalid zoom value"]
      ∧ parse_loop ("--altitude" :: v :: rest) a
        = ParseOutcome.exit 1 ["error: invalid altitude value"]
      ∧ parse_loop ("--azimuth" :: v :: rest) a
        = ParseOutcome.exit 1 ["error: invalid azimuth value"]
      ∧ parse_loop ("-al" :: v :: rest) a
        = parse_loop (v :: rest) { a with animate_altitude := true }
      ∧ parse_loop ("-az" :: v :: rest) a
        = parse_loop (v :: rest) { a with animate_azimuth := true }
      ∧ parse_loop (arg :: rest) a
        = ParseOutcome.exit 1
            ["unknown option: " ++ arg, "type \x27--help\x27 for usage"]
      ∧ startup argv loadOk = StartupOutcome.exit c m false := by
  simp only [knownOptions, List.mem_cons, List.not_mem_nil, or_false,
    not_or] at hu
  obtain ⟨u1, u2, u3, u4, u5, u6, u7, u8, u9, u10, u11, u12, u13, u14, u15,
    u16, u17, u18⟩ := hu
  refine ⟨?_, ?_, ?_, ?_, ?_, ?_, ?_, ?_⟩
  · simp [parse_loop, hv]
  · simp [parse_loop, hv]
  · simp [parse_loop, hv]
  · simp [parse_loop, hv]
  · simp [parse_loop, hv, hvd]
  · simp [parse_loop, hv, hvd]
  · rw [parse_loop.eq_def]
    simp [hd, u1, u2, u3, u4, u5, u6, u7, u8, u9, u10, u11, u12,
      u13, u14, u15, u16, u17, u18]
  · simp [startup, hexit]

/-- Witness for the amended C7 theorem at the malformed value `abc`, the
unknown option `--bogus`, and the invocation `--bogus` (whose parse exits
with status 1). -/
theorem parse_errors_exit_before_curses_witness :
    parse_loop ["-z", "abc"] {}
        = ParseOutcome.exit 1 ["error: invalid zoom value"]
      ∧ parse_loop ["--zoom", "abc"] {}
        = ParseOutcome.exit 1 ["error: invalid zoom value"]
      ∧ parse_loop ["--altitude", "abc"] {}
        = ParseOutcome.exit 1 ["error: invalid altitude value"]
      ∧ parse_loop ["--azimuth", "abc"] {}
        = ParseOutcome.exit 1 ["error: invalid azimuth value"]
      ∧ parse_loop ["-al", "abc"] {}
        = parse_loop ["abc"] { animate_altitude := true }
      ∧ parse_loop ["-az", "abc"] {}
        = parse_loop ["abc"] { animate_azimuth := true }
      ∧ parse_loop ["--bogus"] {}
        = ParseOutcome.exit 1
            ["unknown option: --bogus", "type \x27--help\x27 for usage"]
      ∧ startup ["--bogus"] (fun _ => true)
        = StartupOutcome.exit 1
            ["unknown option: --bogus", "type \x27--help\x27 for usage"] false :=
  parse_errors_exit_before_curses {} "abc" "--bogus" [] ["--bogus"]
    (fun _ => true) 1 ["unknown option: --bogus", "type \x27--help\x27 for usage"]
    (by simp [safe_stof])
    (by simp [firstCharIsDash])
    (by simp [firstCharIsDash])
    (by simp [knownOptions])
    (by simp [parse_args, parse_loop, firstCharIsDash])

set_option maxHeartbeats 2000000 in
/-- `parse_args` succeeds only when some argument was accepted as the input
file: the base case of the loop (main.cpp lines 334–339) exits when
`input_file` is still empty. -/
theorem parse_loop_success_aux (l : List String) (a : Args) :
    ∀ a', parse_loop l a = ParseOutcome.success a' → a'.input_file ≠ "" := by
  induction l, a using parse_loop.induct <;> intro a' h <;>
    rw [parse_loop.eq_def] at h <;> dsimp only at h <;> simp_all

/-- C8 counterexample: the invocation `-h` supplies no input file, yet the
process exits with status 0 (not a non-zero status) and writes nothing to
standard error: the help branch of `parse_args` calls `std::exit(0)` before
the missing-file check is reached. -/
theorem help_without_file_exits_zero :
    startup ["-h"] (fun _ => true) = StartupOutcome.exit 0 [] false := by
  simp [startup, parse_args, parse_loop]

/-- C8 amended: when the loader fails for the parsed input file, `main`
exits with status 1 after the loader's message, before ncurses and without
entering the render loop; when argument scanning completes without accepting
an input file, `parse_args` exits with status 1 and the message
"error: no input file" plus a usage hint; a successful parse always carries a
nonempty input-file path; and the render loop is entered only when parsing
succeeded and the loader succeeded.  (Invocations containing `-h`/`--help` or
`-v`/`--version` exit with status 0 instead, see the counterexample.) -/
theorem startup_aborts_before_render_loop (argv : List String)
    (loadOk : String → Bool) (a b : Args)
    (hs : parse_args argv = ParseOutcome.success a)
    (hload : loadOk a.input_file = false)
    (hb : b.input_file = "") :
    startup argv loadOk = StartupOutcome.exit 1 [load_error_message a.input_file] false
      ∧ parse_loop [] b
        = ParseOutcome.exit 1 ["error: no input file", "type \x27--help\x27 for usage"]
      ∧ a.input_file ≠ ""
      ∧ (∀ (argv2 : List String) (loadOk2 : String → Bool) (a2 : Args)
          (cam : Camera), startup argv2 loadOk2 = StartupOutcome.loop a2 cam →
            parse_args argv2 = ParseOutcome.success a2
              ∧ loadOk2 a2.input_file = true) := by
  refine ⟨?_, ?_, parse_loop_success_aux argv {} a hs, ?_⟩
  · simp [startup, hs, hload]
  · rw [parse_loop.eq_def]
    simp [hb]
  · intro argv2 loadOk2 a2 cam hloop
    unfold startup at hloop
    cases hp : parse_args argv2 with
    | exit c msgs => rw [hp] at hloop; exact absurd hloop (by simp)
    | success a0 =>
      rw [hp] at hloop
      by_cases hl : loadOk2 a0.input_file
      · simp only [hl, if_true] at hloop
        obtain ⟨h1, h2⟩ := StartupOutcome.loop.inj hloop
        rw [h1] at hl
        exact ⟨by rw [h1], hl⟩
      · simp only [hl, if_false] at hloop
        exact absurd hloop (by simp)

/-- Witness for the amended C8 theorem: the invocation `x.obj` parses, a
failing loader makes startup exit with status 1, the loader's message, and
curses not entered; the empty-scan state exits with the no-input-file error. -/
theorem startup_aborts_before_render_loop_witness :
    startup ["x.obj"] (fun _ => false)
        = StartupOutcome.exit 1 [load_error_message "x.obj"] false
      ∧ parse_loop [] {}
        = ParseOutcome.exit 1 ["error: no input file", "type \x27--help\x27 for usage"]
      ∧ Args.input_file { input_file := "x.obj" } ≠ "" :=
  have h := startup_aborts_before_render_loop ["x.obj"] (fun _ => false)
    { input_file := "x.obj" } {}
    (by simp [parse_args, parse_loop, firstCharIsDash]) rfl rfl
  ⟨h.1, h.2.1, h.2.2.1⟩

/-- C9: the deadline is the fixed value `FRAME_DURATION = 1/60 s` past the
iteration's start timestamp, so consecutive iteration starts are at least
`FRAME_DURATION` apart (the rate never exceeds 60 fps); an iteration whose
body overruns the deadline starts the next iteration immediately, with no
catch-up — the measured `dt = next start − now` is exactly
`max(work, FRAME_DURATION)`, so the overrun appears only as a larger `dt`. -/
theorem frame_pacing_caps_rate (now work : ℚ) :
    FRAME_DURATION = 1 / 60
      ∧ now + FRAME_DURATION ≤ next_frame_start now work
      ∧ (FRAME_DURATION ≤ work → next_frame_start now work = now + work)
      ∧ next_frame_start now work - now = max work FRAME_DURATION := by
  refine ⟨by norm_num [FRAME_DURATION], le_max_right _ _,
    fun h => max_eq_left (by linarith), ?_⟩
  rw [next_frame_start, max_add_add_left now work FRAME_DURATION]
  ring

/-- Witness for C9: with `work = 1 s` (an overrunning iteration) the next
iteration starts immediately when the body ends, and never earlier than the
deadline. -/
theorem frame_pacing_caps_rate_witness :
    next_frame_start 0 1 = 0 + 1
      ∧ (0 : ℚ) + FRAME_DURATION ≤ next_frame_start 0 1 :=
  ⟨(frame_pacing_caps_rate 0 1).2.2.1 (by norm_num [FRAME_DURATION]),
   (frame_pacing_caps_rate 0 1).2.1⟩
/-- C10: for every material list (on a terminal with colors, where
`COLOR_PAIRS` is at least 2 and fits in `int`), `init_colors` registers at
most `min(#materials, COLOR_PAIRS − 2)` material pairs — exactly the indices
`1` through that limit when color is active and none otherwise — registers
the HUD pair only when its index `limit + 1` is strictly below
`COLOR_PAIRS`, and never initialises any pair index at or above
`COLOR_PAIRS` (materials beyond the limit simply receive no pair). -/
theorem init_colors_respects_pair_bound (materials : List (ℚ × ℚ × ℚ))
    (colorPairs : ℤ) (hasColors canChange : Bool)
    (h2 : 2 ≤ colorPairs) (h31 : colorPairs < 2 ^ 31) :
    (init_colors materials colorPairs hasColors canChange).materialPairs.length
        ≤ min materials.length (colorPairs - 2).toNat
      ∧ (init_colors materials colorPairs hasColors canChange).materialPairs
        = (if hasColors = false ∨ canChange = false then []
           else (List.range (min materials.length (colorPairs - 2).toNat)).map
             (fun (i : ℕ) => (i : ℤ) + 1))
      ∧ (init_colors materials colorPairs hasColors canChange).hudPair
        = (if hasColors = false ∨ canChange = false then none
           else if ((min materials.length (colorPairs - 2).toNat : ℕ) : ℤ) + 1
               < colorPairs then
             some (((min materials.length (colorPairs - 2).toNat : ℕ) : ℤ) + 1)
           else none)
      ∧ (∀ p ∈ (init_colors materials colorPairs hasColors canChange).materialPairs,
          1 ≤ p ∧ p < colorPairs)
      ∧ (∀ p, (init_colors materials colorPairs hasColors canChange).hudPair
            = some p → 1 ≤ p ∧ p < colorPairs) := by
  have hcast : size_t_cast (colorPairs - 2) = (colorPairs - 2).toNat := by
    unfold size_t_cast
    rw [Int.emod_eq_of_lt (by omega) (by omega)]
  unfold init_colors
  rw [hcast]
  by_cases hoff : hasColors = false ∨ canChange = false
  · simp [hoff]
  · simp only [if_neg hoff]
    refine ⟨?_, trivial, trivial, ?_, ?_⟩
    · show ((List.range (min materials.length (colorPairs - 2).toNat)).map
          (fun (i : ℕ) => (i : ℤ) + 1)).length ≤ min materials.length (colorPairs - 2).toNat
      rw [List.length_map, List.length_range]
    · intro p hp
      simp only [List.mem_map, List.mem_range] at hp
      obtain ⟨i, hi, rfl⟩ := hp
      have hib : i < (colorPairs - 2).toNat :=
        lt_of_lt_of_le hi (min_le_right _ _)
      omega
    · intro p hp
      split_ifs at hp with hlt
      obtain rfl := Option.some.inj hp
      exact ⟨by omega, hlt⟩

/-- Witness for C10 at three materials on a 64-pair terminal with colors:
exactly the pairs 1, 2, 3 are registered for the materials and each lies
strictly below the 64-pair bound. -/
theorem init_colors_respects_pair_bound_witness :
    (init_colors [(1, 0, 0), (0, 1, 0), (0, 0, 1)] 64 true true).materialPairs
        = (if (true = false ∨ true = false) then []
           else (List.range (min (List.length [((1 : ℚ), (0 : ℚ), (0 : ℚ)),
               (0, 1, 0), (0, 0, 1)]) ((64 : ℤ) - 2).toNat)).map
             (fun (i : ℕ) => (i : ℤ) + 1))
      ∧ (∀ p ∈ (init_colors [(1, 0, 0), (0, 1, 0), (0, 0, 1)] 64 true true).materialPairs,
          1 ≤ p ∧ p < 64) :=
  have h := init_colors_respects_pair_bound [(1, 0, 0), (0, 1, 0), (0, 0, 1)]
    64 true true (by norm_num) (by norm_num)
  ⟨h.2.1, h.2.2.2.1⟩

end Objcurses
